import Mathlib

/-!
# Verification of the FireIncident CRUD service

Shallow embedding of `service/models.py` and `service/routes.py`:
the `FireIncident` data model with its `serialize` / `deserialize`
contract, the list/find/filter/create/update/delete persistence
operations (the relational store is modelled as an in-memory list of
rows plus a serial id counter, matching the spec's description of the
opaque storage collaborator), and the five REST handlers.

Python dynamic values are modelled by `JValue`; Python exceptions by
`PyError` (the exceptions raised inside `deserialize`'s `try` block)
and `PyException` (what escapes `deserialize`: a wrapped
`DataValidationError` or an uncaught exception).  `datetime` objects
restricted to whole-minute UTC offsets are modelled by `PyDateTime`,
with `isoformat` / `fromisoformat` implemented character by character.
-/

/-- A JSON-like dynamic value, as handled by the Flask service. -/
inductive JValue where
  | jnull : JValue
  | jbool : Bool → JValue
  | jint : Int → JValue
  | jnum : Rat → JValue
  | jstr : String → JValue
  | jlist : List JValue → JValue
  | jobj : List (String × JValue) → JValue

/-- The Python exceptions that can arise inside `FireIncident.deserialize`:
`KeyError` from a missing dict key, `TypeError` from subscripting a
non-mapping or passing a non-string to `fromisoformat`, `ValueError`
from `fromisoformat` on an unparseable string. -/
inductive PyError where
  | keyError : String → PyError
  | typeError : String → PyError
  | valueError : String → PyError

/-- What escapes `deserialize`: either the wrapped `DataValidationError`
(from the `except KeyError` / `except TypeError` clauses) or an
exception the `try` block does not catch. -/
inductive PyException where
  | validation : String → PyException
  | uncaught : PyError → PyException

/-- A Python `datetime`, with an optional timezone offset in whole
minutes (`none` = naive). -/
structure PyDateTime where
  year : Nat
  month : Nat
  day : Nat
  hour : Nat
  minute : Nat
  second : Nat
  microsecond : Nat
  tz : Option Int
deriving DecidableEq, Repr

/-- The character for a decimal digit, as produced by Python number
formatting. -/
def digitChar (n : Nat) : Char := Char.ofNat (48 + n)

/-- Zero-padded fixed-width decimal rendering, most significant digit
first (`%02d`, `%04d`, `%06d` in CPython's `isoformat`). -/
def padNum : Nat → Nat → List Char
  | 0, _ => []
  | k + 1, n => digitChar (n / 10 ^ k) :: padNum k (n % 10 ^ k)

/-- Read one decimal digit. -/
def parseDigit (c : Char) : Option Nat :=
  if 48 ≤ c.toNat ∧ c.toNat ≤ 57 then some (c.toNat - 48) else none

/-- Read exactly `k` decimal digits, accumulating into `acc`. -/
def parseNatFix : Nat → Nat → List Char → Option (Nat × List Char)
  | 0, acc, l => some (acc, l)
  | _ + 1, _, [] => none
  | k + 1, acc, c :: l =>
    match parseDigit c with
    | some d => parseNatFix k (acc * 10 + d) l
    | none => none

/-- Consume one expected character. -/
def parseChar (c : Char) : List Char → Option (List Char)
  | [] => none
  | x :: l => if x = c then some l else none

/-- Leap-year test of the proleptic Gregorian calendar
(`calendar.isleap`). -/
def isLeap (y : Nat) : Bool := y % 4 == 0 && (y % 100 != 0 || y % 400 == 0)

/-- Days in a month, as validated by the `datetime` constructor. -/
def daysInMonth (y mo : Nat) : Nat :=
  if mo = 2 then (if isLeap y then 29 else 28)
  else if mo = 4 ∨ mo = 6 ∨ mo = 9 ∨ mo = 11 then 30
  else 31

/-- The `datetime` constructor's date range check. -/
def validYMD (y mo d : Nat) : Bool :=
  1 ≤ y && y ≤ 9999 && 1 ≤ mo && mo ≤ 12 && 1 ≤ d && d ≤ daysInMonth y mo

/-- Parse the optional trailing UTC offset `±HH:MM` of an ISO string;
an empty remainder means a naive datetime. -/
def parseOffset : List Char → Option (Option Int × List Char)
  | [] => some (none, [])
  | '+' :: l =>
    match parseNatFix 2 0 l with
    | none => none
    | some (h, l) =>
      match parseChar ':' l with
      | none => none
      | some l =>
        match parseNatFix 2 0 l with
        | none => none
        | some (m, l) =>
          if h ≤ 23 ∧ m ≤ 59 then some (some ((h * 60 + m : Nat) : Int), l) else none
  | '-' :: l =>
    match parseNatFix 2 0 l with
    | none => none
    | some (h, l) =>
      match parseChar ':' l with
      | none => none
      | some l =>
        match parseNatFix 2 0 l with
        | none => none
        | some (m, l) =>
          if h ≤ 23 ∧ m ≤ 59 then some (some (-((h * 60 + m : Nat) : Int)), l) else none
  | _ :: _ => none

/-- Parse the optional fractional-second part `.ffffff`. -/
def parseMicro : List Char → Option (Nat × List Char)
  | '.' :: l => parseNatFix 6 0 l
  | l => some (0, l)

/-- Model of `datetime.fromisoformat` on the grammar produced by `isoformat`:
`YYYY-MM-DD<sep>HH:MM:SS[.ffffff][±HH:MM]` (any single separator
character, as in CPython before 3.11), with the constructor's range
validation.  `none` models the `ValueError` raised on any other
string. -/
def parseIso (l : List Char) : Option PyDateTime :=
  match parseNatFix 4 0 l with
  | none => none
  | some (y, l) =>
  match parseChar '-' l with
  | none => none
  | some l =>
  match parseNatFix 2 0 l with
  | none => none
  | some (mo, l) =>
  match parseChar '-' l with
  | none => none
  | some l =>
  match parseNatFix 2 0 l with
  | none => none
  | some (d, l) =>
  match l with
  | [] => none
  | _sep :: l =>
  match parseNatFix 2 0 l with
  | none => none
  | some (h, l) =>
  match parseChar ':' l with
  | none => none
  | some l =>
  match parseNatFix 2 0 l with
  | none => none
  | some (mi, l) =>
  match parseChar ':' l with
  | none => none
  | some l =>
  match parseNatFix 2 0 l with
  | none => none
  | some (s, l) =>
  match parseMicro l with
  | none => none
  | some (us, l) =>
  match parseOffset l with
  | none => none
  | some (off, l) =>
  if l = [] ∧ validYMD y mo d = true ∧ h ≤ 23 ∧ mi ≤ 59 ∧ s ≤ 59 then
    some ⟨y, mo, d, h, mi, s, us, off⟩
  else none

/-- The characters of `datetime.isoformat()` for an offset: nothing for
a naive datetime, else sign and `HH:MM`. -/
def offsetChars : Option Int → List Char
  | none => []
  | some off =>
    (if 0 ≤ off then '+' else '-') ::
      (padNum 2 (off.natAbs / 60) ++ ':' :: padNum 2 (off.natAbs % 60))

/-- The characters of `datetime.isoformat()` (default separator `T`,
default `timespec='auto'`: microseconds printed only when nonzero). -/
def isoChars (dt : PyDateTime) : List Char :=
  padNum 4 dt.year ++ '-' :: padNum 2 dt.month ++ '-' :: padNum 2 dt.day ++
    'T' :: padNum 2 dt.hour ++ ':' :: padNum 2 dt.minute ++ ':' :: padNum 2 dt.second ++
    (if dt.microsecond = 0 then [] else '.' :: padNum 6 dt.microsecond) ++
    offsetChars dt.tz

/-- Model of `datetime.isoformat()` as a string. -/
def PyDateTime.isoformat (dt : PyDateTime) : String := String.mk (isoChars dt)

/-- The datetimes representable by the Python `datetime` class (with
whole-minute offsets): the field ranges the constructor enforces. -/
def PyDateTime.Valid (dt : PyDateTime) : Prop :=
  validYMD dt.year dt.month dt.day = true ∧
    dt.hour ≤ 23 ∧ dt.minute ≤ 59 ∧ dt.second ≤ 59 ∧ dt.microsecond ≤ 999999 ∧
    (∀ off, dt.tz = some off → off.natAbs ≤ 1439)

instance (dt : PyDateTime) : Decidable dt.Valid := by
  unfold PyDateTime.Valid
  exact inferInstance

/-- Model of `datetime.fromisoformat(value)` on a dynamic argument: `TypeError`
for a non-string, `ValueError` for a string the ISO grammar rejects. -/
def fromisoformat : JValue → Except PyError PyDateTime
  | .jstr s =>
    match parseIso s.data with
    | some dt => .ok dt
    | none => .error (.valueError ("Invalid isoformat string: " ++ s))
  | _ => .error (.typeError "fromisoformat: argument must be str")

/-- The `FireIncident` model of `service/models.py` (table schema lines
35–50).  Dynamic (column-typed) fields are `JValue`s; the two
timezone-aware timestamp columns hold `datetime` objects. -/
structure FireIncident where
  object_id : JValue
  x : JValue
  y : JValue
  incident_size : JValue
  containment_datetime : PyDateTime
  fire_discovery_datetime : PyDateTime
  incident_name : JValue
  incident_type_category : JValue
  initial_latitude : JValue
  initial_longitude : JValue
  poo_city : JValue
  poo_county : JValue
  poo_state : JValue
  fire_cause_id : JValue
  poo_landowner_category : JValue
  unique_fire_identifier : JValue

/-- Model of `FireIncident.serialize` (models.py lines 76–95): the dictionary of
all fields, timestamps rendered with `isoformat()`. -/
def serialize (r : FireIncident) : JValue :=
  .jobj [
    ("object_id", r.object_id),
    ("x", r.x),
    ("y", r.y),
    ("incident_size", r.incident_size),
    ("containment_datetime", .jstr r.containment_datetime.isoformat),
    ("fire_discovery_datetime", .jstr r.fire_discovery_datetime.isoformat),
    ("incident_name", r.incident_name),
    ("incident_type_category", r.incident_type_category),
    ("initial_latitude", r.initial_latitude),
    ("initial_longitude", r.initial_longitude),
    ("poo_city", r.poo_city),
    ("poo_county", r.poo_county),
    ("poo_state", r.poo_state),
    ("fire_cause_id", r.fire_cause_id),
    ("poo_landowner_category", r.poo_landowner_category),
    ("unique_fire_identifier", r.unique_fire_identifier)]

/-- Python subscription `data[key]`: on a dict, lookup (raising
`KeyError` when absent); on any non-mapping value, `TypeError` with
the interpreter's message for that type. -/
def getItem : JValue → String → Except PyError JValue
  | .jobj l, k =>
    match l.lookup k with
    | some v => .ok v
    | none => .error (.keyError k)
  | .jstr _, _ => .error (.typeError "string indices must be integers")
  | .jlist _, _ => .error (.typeError "list indices must be integers or slices, not str")
  | .jnull, _ => .error (.typeError "NoneType object is not subscriptable")
  | .jbool _, _ => .error (.typeError "bool object is not subscriptable")
  | .jint _, _ => .error (.typeError "int object is not subscriptable")
  | .jnum _, _ => .error (.typeError "float object is not subscriptable")

/-- The body of `FireIncident.deserialize`s `try` block (models.py
lines 104–124): sequential field extraction, timestamps parsed with
`datetime.fromisoformat`. -/
def deserializeBody (data : JValue) : Except PyError FireIncident :=
  match getItem data "object_id" with
  | .error e => .error e
  | .ok object_id =>
  match getItem data "x" with
  | .error e => .error e
  | .ok x =>
  match getItem data "y" with
  | .error e => .error e
  | .ok y =>
  match getItem data "incident_size" with
  | .error e => .error e
  | .ok incident_size =>
  match getItem data "containment_datetime" with
  | .error e => .error e
  | .ok cdt_raw =>
  match fromisoformat cdt_raw with
  | .error e => .error e
  | .ok containment_datetime =>
  match getItem data "fire_discovery_datetime" with
  | .error e => .error e
  | .ok fdt_raw =>
  match fromisoformat fdt_raw with
  | .error e => .error e
  | .ok fire_discovery_datetime =>
  match getItem data "incident_name" with
  | .error e => .error e
  | .ok incident_name =>
  match getItem data "incident_type_category" with
  | .error e => .error e
  | .ok incident_type_category =>
  match getItem data "initial_latitude" with
  | .error e => .error e
  | .ok initial_latitude =>
  match getItem data "initial_longitude" with
  | .error e => .error e
  | .ok initial_longitude =>
  match getItem data "poo_city" with
  | .error e => .error e
  | .ok poo_city =>
  match getItem data "poo_county" with
  | .error e => .error e
  | .ok poo_county =>
  match getItem data "poo_state" with
  | .error e => .error e
  | .ok poo_state =>
  match getItem data "fire_cause_id" with
  | .error e => .error e
  | .ok fire_cause_id =>
  match getItem data "poo_landowner_category" with
  | .error e => .error e
  | .ok poo_landowner_category =>
  match getItem data "unique_fire_identifier" with
  | .error e => .error e
  | .ok unique_fire_identifier =>
  .ok ⟨object_id, x, y, incident_size, containment_datetime, fire_discovery_datetime,
    incident_name, incident_type_category, initial_latitude, initial_longitude,
    poo_city, poo_county, poo_state, fire_cause_id, poo_landowner_category,
    unique_fire_identifier⟩

/-- Model of `FireIncident.deserialize` (models.py lines 97–134): the `try`
block wrapped by `except KeyError` and `except TypeError`, each
re-raised as `DataValidationError`; any other exception (notably the
`ValueError` from `fromisoformat`) escapes uncaught. -/
def deserialize (data : JValue) : Except PyException FireIncident :=
  match deserializeBody data with
  | .ok r => .ok r
  | .error (.keyError k) => .error (.validation ("Invalid FireIncident: missing " ++ k))
  | .error (.typeError m) => .error (.validation
      ("Invalid FireIncident: body of request contained bad or no data - Error message: " ++ m))
  | .error (.valueError m) => .error (.uncaught (.valueError m))

/-! ## Persistence and HTTP handlers

The relational store (an external collaborator, per the spec) is an
in-memory table: a list of rows in insertion order plus the serial
sequence backing the `object_id` primary key. -/

/-- The database state behind the SQLAlchemy session. -/
structure Db where
  rows : List FireIncident
  nextId : Int

/-- SQL equality of the integer `object_id` primary-key column against
an integer. -/
def jvEqInt : JValue → Int → Bool
  | .jint n, m => n == m
  | _, _ => false

/-- SQL equality of a string column against a string literal
(case-sensitive, as in the underlying store). -/
def jvEqStr : JValue → String → Bool
  | .jstr s, v => s == v
  | _, _ => false

/-- Model of `FireIncident.find` (models.py lines 152–156): primary-key lookup. -/
def find (db : Db) (by_id : Int) : Option FireIncident :=
  db.rows.find? fun r => jvEqInt r.object_id by_id

/-- Model of `FireIncident.all` (models.py lines 146–150). -/
def allRows (db : Db) : List FireIncident := db.rows

/-- Model of `FireIncident.find_by_poo_county` (models.py lines 158–166):
equality filter on the `poo_county` column. -/
def find_by_poo_county (db : Db) (poo_county : String) : List FireIncident :=
  db.rows.filter fun r => jvEqStr r.poo_county poo_county

/-- Model of `FireIncident.create` (models.py lines 55–61): insert; the store
assigns the serial primary key when `object_id` is null, and inserts
at the given key otherwise. -/
def create (db : Db) (r : FireIncident) : Db × FireIncident :=
  match r.object_id with
  | .jnull =>
    let r' := { r with object_id := .jint db.nextId }
    ({ rows := db.rows ++ [r'], nextId := db.nextId + 1 }, r')
  | _ => ({ rows := db.rows ++ [r], nextId := db.nextId }, r)

/-- Model of `FireIncident.update` commit (models.py lines 63–68): the found
session object was mutated in place, so the row at its primary key is
replaced. -/
def updateRows : List FireIncident → Int → FireIncident → List FireIncident
  | [], _, _ => []
  | r :: rs, by_id, upd =>
    if jvEqInt r.object_id by_id then upd :: rs else r :: updateRows rs by_id upd

/-- Model of `FireIncident.delete` (models.py lines 70–74): `DELETE` of the row
with this primary key. -/
def deleteRow (db : Db) (by_id : Int) : Db :=
  { db with rows := db.rows.filter fun r => !jvEqInt r.object_id by_id }

/-- An HTTP response: status code, JSON body, optional Location header
(carrying the id the URL is built from). -/
structure HttpResponse where
  status : Nat
  body : JValue
  location : Option JValue

/-- Modelled from the spec: the Flask error-handler boundary, absent
from `src/`, translates a `DataValidationError` to 400 and renders
error bodies carrying the status code and a human-readable message
(spec sections 6 and 7). -/
def errorResponse (code : Nat) (msg : String) : HttpResponse :=
  { status := code, body := .jobj [("status", .jint code), ("message", .jstr msg)],
    location := none }

/-- Model of `check_content_type` (routes.py lines 167–183): 415 unless the
header is present and exactly `application/json`. -/
def contentTypeOk : Option String → Bool
  | some ct => ct == "application/json"
  | none => false

/-- Model of `list_fire_incidents` (routes.py lines 54–67): `GET /fires`, with
the optional `poo_county` query parameter tested for truthiness
(`if poo_county:`), so both an absent and an empty-string parameter
fall to the unfiltered branch. -/
def list_fire_incidents (db : Db) (poo_county : Option String) : HttpResponse :=
  let fire_incidents :=
    match poo_county with
    | some s => if s = "" then allRows db else find_by_poo_county db s
    | none => allRows db
  { status := 200, body := .jlist (fire_incidents.map serialize), location := none }

/-- Model of `get_fire_incidents` (routes.py lines 73–89): `GET /fires/{id}`. -/
def get_fire_incidents (db : Db) (object_id : Int) : HttpResponse :=
  match find db object_id with
  | none => errorResponse 404
      ("FireIncident with id " ++ toString object_id ++ " was not found.")
  | some r => { status := 200, body := serialize r, location := none }

/-- Model of `create_fire_incidents` (routes.py lines 95–112): `POST /fires` —
content-type check, deserialize, create, 201 with Location. A
validation error aborts before `create` (translation to 400 modelled
from the spec); an uncaught exception surfaces as a 500. -/
def create_fire_incidents (db : Db) (contentType : Option String) (body : JValue) :
    Db × HttpResponse :=
  if !contentTypeOk contentType then
    (db, errorResponse 415 "Content-Type must be application/json")
  else
    match deserialize body with
    | .error (.validation m) => (db, errorResponse 400 m)
    | .error (.uncaught _) => (db, errorResponse 500 "Internal Server Error")
    | .ok r =>
      let (db', r') := create db r
      (db', { status := 201, body := serialize r', location := some r'.object_id })

/-- Model of `update_fire_incidents` (routes.py lines 118–140): `PUT /fires/{id}`
— content-type check, 404 when absent, deserialize into the found row,
`object_id` overwritten with the path value, commit. -/
def update_fire_incidents (db : Db) (object_id : Int) (contentType : Option String)
    (body : JValue) : Db × HttpResponse :=
  if !contentTypeOk contentType then
    (db, errorResponse 415 "Content-Type must be application/json")
  else
    match find db object_id with
    | none => (db, errorResponse 404
        ("FireIncident with id " ++ toString object_id ++ " was not found."))
    | some _ =>
      match deserialize body with
      | .error (.validation m) => (db, errorResponse 400 m)
      | .error (.uncaught _) => (db, errorResponse 500 "Internal Server Error")
      | .ok r =>
        let upd := { r with object_id := .jint object_id }
        ({ db with rows := updateRows db.rows object_id upd },
          { status := 200, body := serialize upd, location := none })

/-- Model of `delete_fire_incidents` (routes.py lines 146–159): `DELETE
/fires/{id}` — delete when found, 204 with empty body either way. -/
def delete_fire_incidents (db : Db) (object_id : Int) : Db × HttpResponse :=
  match find db object_id with
  | some _ => (deleteRow db object_id, { status := 204, body := .jstr "", location := none })
  | none => (db, { status := 204, body := .jstr "", location := none })

/-! ## Auxiliary predicates and concrete request data -/

/-- Whether a dynamic value is a key/value mapping (a Python dict). -/
def JValue.isMapping : JValue → Bool
  | .jobj _ => true
  | _ => false

/-- Whether `deserialize` failed with a `DataValidationError` (as
opposed to succeeding or letting an exception escape). -/
def isValidationFailure : Except PyException FireIncident → Bool
  | .error (.validation _) => true
  | _ => false

/-- The keys `deserialize` reads, in the order it reads them. -/
def requiredKeys : List String :=
  ["object_id", "x", "y", "incident_size", "containment_datetime",
   "fire_discovery_datetime", "incident_name", "incident_type_category",
   "initial_latitude", "initial_longitude", "poo_city", "poo_county",
   "poo_state", "fire_cause_id", "poo_landowner_category",
   "unique_fire_identifier"]

/-- The timestamp entries of a mapping, where present, hold values
`datetime.fromisoformat` accepts. -/
def TimestampsParse (l : List (String × JValue)) : Prop :=
  (∀ v, l.lookup "containment_datetime" = some v → ∃ dt, fromisoformat v = .ok dt) ∧
  (∀ v, l.lookup "fire_discovery_datetime" = some v → ∃ dt, fromisoformat v = .ok dt)

/-- The first required key (in the order `deserialize` reads them) that
a mapping lacks, when any. -/
def firstMissingKey (l : List (String × JValue)) : Option String :=
  requiredKeys.find? fun k => (l.lookup k).isNone

/-- The spec's example POST body (section 8): every field except
`object_id`. -/
def exampleBody : JValue := .jobj [
  ("x", .jnum 1), ("y", .jnum 2), ("incident_size", .jnum 100),
  ("containment_datetime", .jstr "2020-01-01T00:00:00+00:00"),
  ("fire_discovery_datetime", .jstr "2020-01-01T00:00:00+00:00"),
  ("incident_name", .jstr "Test Fire"),
  ("incident_type_category", .jstr "WF"),
  ("initial_latitude", .jnum 34), ("initial_longitude", .jnum (-118)),
  ("poo_city", .jstr "LA"), ("poo_county", .jstr "Los Angeles"),
  ("poo_state", .jstr "US-CA"), ("fire_cause_id", .jint 1),
  ("poo_landowner_category", .jstr "federal"),
  ("unique_fire_identifier", .jstr "1994-AZCRA-000037")]

/-- The spec's example body extended with a null `object_id` entry, the
shape the repository's own tests POST (the factory serializes the
unsaved primary key). -/
def exampleBodyWithNullId : JValue := .jobj [
  ("object_id", .jnull),
  ("x", .jnum 1), ("y", .jnum 2), ("incident_size", .jnum 100),
  ("containment_datetime", .jstr "2020-01-01T00:00:00+00:00"),
  ("fire_discovery_datetime", .jstr "2020-01-01T00:00:00+00:00"),
  ("incident_name", .jstr "Test Fire"),
  ("incident_type_category", .jstr "WF"),
  ("initial_latitude", .jnum 34), ("initial_longitude", .jnum (-118)),
  ("poo_city", .jstr "LA"), ("poo_county", .jstr "Los Angeles"),
  ("poo_state", .jstr "US-CA"), ("fire_cause_id", .jint 1),
  ("poo_landowner_category", .jstr "federal"),
  ("unique_fire_identifier", .jstr "1994-AZCRA-000037")]

/-- The same body carrying an explicit `object_id` of 999, used to
check that PUT ignores the body's identity. -/
def exampleBodyWith999 : JValue := .jobj [
  ("object_id", .jint 999),
  ("x", .jnum 1), ("y", .jnum 2), ("incident_size", .jnum 100),
  ("containment_datetime", .jstr "2020-01-01T00:00:00+00:00"),
  ("fire_discovery_datetime", .jstr "2020-01-01T00:00:00+00:00"),
  ("incident_name", .jstr "Test Fire"),
  ("incident_type_category", .jstr "WF"),
  ("initial_latitude", .jnum 34), ("initial_longitude", .jnum (-118)),
  ("poo_city", .jstr "LA"), ("poo_county", .jstr "Los Angeles"),
  ("poo_state", .jstr "US-CA"), ("fire_cause_id", .jint 1),
  ("poo_landowner_category", .jstr "federal"),
  ("unique_fire_identifier", .jstr "1994-AZCRA-000037")]

/-- A complete mapping whose `containment_datetime` value is a string
the ISO-8601 grammar rejects. -/
def badTimestampBody : JValue := .jobj [
  ("object_id", .jnull),
  ("x", .jnum 1), ("y", .jnum 2), ("incident_size", .jnum 100),
  ("containment_datetime", .jstr "not-a-datetime"),
  ("fire_discovery_datetime", .jstr "2020-01-01T00:00:00+00:00"),
  ("incident_name", .jstr "Test Fire"),
  ("incident_type_category", .jstr "WF"),
  ("initial_latitude", .jnum 34), ("initial_longitude", .jnum (-118)),
  ("poo_city", .jstr "LA"), ("poo_county", .jstr "Los Angeles"),
  ("poo_state", .jstr "US-CA"), ("fire_cause_id", .jint 1),
  ("poo_landowner_category", .jstr "federal"),
  ("unique_fire_identifier", .jstr "1994-AZCRA-000037")]

/-- A mapping that lacks required keys (everything from
`fire_discovery_datetime` on) and whose `containment_datetime` value is
an unparseable string. -/
def missingKeyBadTsBody : List (String × JValue) :=
  [("object_id", .jnull), ("x", .jnum 1), ("y", .jnum 2),
   ("incident_size", .jnum 100), ("containment_datetime", .jstr "bad")]

/-- The record the example body deserializes to (before the store
assigns an id). -/
def exampleRecord : FireIncident :=
  { object_id := .jnull, x := .jnum 1, y := .jnum 2, incident_size := .jnum 100,
    containment_datetime := ⟨2020, 1, 1, 0, 0, 0, 0, some 0⟩,
    fire_discovery_datetime := ⟨2020, 1, 1, 0, 0, 0, 0, some 0⟩,
    incident_name := .jstr "Test Fire", incident_type_category := .jstr "WF",
    initial_latitude := .jnum 34, initial_longitude := .jnum (-118),
    poo_city := .jstr "LA", poo_county := .jstr "Los Angeles",
    poo_state := .jstr "US-CA", fire_cause_id := .jint 1,
    poo_landowner_category := .jstr "federal",
    unique_fire_identifier := .jstr "1994-AZCRA-000037" }

/-- The example record as stored under primary key 1. -/
def exampleRecord1 : FireIncident := { exampleRecord with object_id := .jint 1 }

/-- An empty store whose serial sequence starts at 1. -/
def emptyDb : Db := ⟨[], 1⟩

/-- A store holding exactly the example record at id 1. -/
def oneRecordDb : Db := ⟨[exampleRecord1], 2⟩

/-! ## Lemmas: digit printing and parsing are inverse -/

theorem parseDigit_digitChar (d : Nat) (hd : d < 10) :
    parseDigit (digitChar d) = some d := by
  interval_cases d <;> decide

theorem parseNatFix_padNum (k n acc : Nat) (rest : List Char) (h : n < 10 ^ k) :
    parseNatFix k acc (padNum k n ++ rest) = some (acc * 10 ^ k + n, rest) := by
  induction k generalizing n acc with
  | zero =>
    simp only [padNum, List.nil_append, parseNatFix]
    have : n = 0 := by omega
    simp [this]
  | succ k ih =>
    have hq : n / 10 ^ k < 10 := by
      rw [Nat.div_lt_iff_lt_mul (Nat.pos_pow_of_pos k (by norm_num))]
      calc n < 10 ^ (k + 1) := h
        _ = 10 * 10 ^ k := by ring
    have hr : n % 10 ^ k < 10 ^ k := Nat.mod_lt _ (Nat.pos_pow_of_pos k (by norm_num))
    simp only [padNum, List.cons_append, parseNatFix, parseDigit_digitChar _ hq]
    rw [List.append_eq, ih _ _ hr]
    congr 2
    calc (acc * 10 + n / 10 ^ k) * 10 ^ k + n % 10 ^ k
        = acc * (10 ^ k * 10) + (10 ^ k * (n / 10 ^ k) + n % 10 ^ k) := by ring
      _ = acc * 10 ^ (k + 1) + n := by rw [Nat.div_add_mod, pow_succ]

theorem parseNatFix_padNum0 (k n : Nat) (rest : List Char) (h : n < 10 ^ k) :
    parseNatFix k 0 (padNum k n ++ rest) = some (n, rest) := by
  simpa using parseNatFix_padNum k n 0 rest h

theorem parseChar_cons (c : Char) (l : List Char) : parseChar c (c :: l) = some l := by
  simp [parseChar]

theorem parseOffset_offsetChars (tz : Option Int)
    (htz : ∀ off, tz = some off → off.natAbs ≤ 1439) :
    parseOffset (offsetChars tz) = some (tz, []) := by
  match tz with
  | none => rfl
  | some off =>
    have habs : off.natAbs ≤ 1439 := htz off rfl
    have hh : off.natAbs / 60 ≤ 23 := by omega
    have hm : off.natAbs % 60 ≤ 59 := by omega
    have e1 := parseNatFix_padNum0 2 (off.natAbs / 60)
      (':' :: padNum 2 (off.natAbs % 60)) (by omega)
    have e2 := parseChar_cons ':' (padNum 2 (off.natAbs % 60))
    have e3 := parseNatFix_padNum0 2 (off.natAbs % 60) ([] : List Char) (by omega)
    rw [List.append_nil] at e3
    by_cases h0 : 0 ≤ off
    · simp only [offsetChars, if_pos h0, parseOffset, e1, e2, e3, if_pos (And.intro hh hm)]
      have harith : ((off.natAbs / 60 * 60 + off.natAbs % 60 : Nat) : Int) = off := by omega
      rw [harith]
    · simp only [offsetChars, if_neg h0, parseOffset, e1, e2, e3, if_pos (And.intro hh hm)]
      have harith : -((off.natAbs / 60 * 60 + off.natAbs % 60 : Nat) : Int) = off := by omega
      rw [harith]

theorem daysInMonth_le (y mo : Nat) : daysInMonth y mo ≤ 31 := by
  unfold daysInMonth
  split_ifs <;> norm_num

theorem parseIso_isoChars (dt : PyDateTime) (h : dt.Valid) :
    parseIso (isoChars dt) = some dt := by
  obtain ⟨hymd, hh, hmi, hs, hus, htz⟩ := h
  have hymd' : 1 ≤ dt.year ∧ dt.year ≤ 9999 ∧ 1 ≤ dt.month ∧ dt.month ≤ 12 ∧
      1 ≤ dt.day ∧ dt.day ≤ daysInMonth dt.year dt.month := by
    simpa [validYMD, Bool.and_eq_true, decide_eq_true_eq, and_assoc] using hymd
  have hd31 := daysInMonth_le dt.year dt.month
  have hy : dt.year < 10 ^ 4 := by omega
  have hmo : dt.month < 10 ^ 2 := by omega
  have hd : dt.day < 10 ^ 2 := by omega
  have hho : dt.hour < 10 ^ 2 := by omega
  have hmin : dt.minute < 10 ^ 2 := by omega
  have hsec : dt.second < 10 ^ 2 := by omega
  have husb : dt.microsecond < 10 ^ 6 := by omega
  have hoff := parseOffset_offsetChars dt.tz htz
  have hmicro : parseMicro ((if dt.microsecond = 0 then [] else
      '.' :: padNum 6 dt.microsecond) ++ offsetChars dt.tz) =
      some (dt.microsecond, offsetChars dt.tz) := by
    have hoc : offsetChars dt.tz = [] ∨
        ∃ l, offsetChars dt.tz = '+' :: l ∨ offsetChars dt.tz = '-' :: l := by
      cases dt.tz with
      | none => exact Or.inl rfl
      | some off =>
        refine Or.inr ?_
        by_cases h0 : 0 ≤ off
        · exact ⟨padNum 2 (off.natAbs / 60) ++ ':' :: padNum 2 (off.natAbs % 60),
            Or.inl (by simp [offsetChars, h0])⟩
        · exact ⟨padNum 2 (off.natAbs / 60) ++ ':' :: padNum 2 (off.natAbs % 60),
            Or.inr (by simp [offsetChars, h0])⟩
    by_cases h0 : dt.microsecond = 0
    · rw [if_pos h0, List.nil_append, h0]
      rcases hoc with hoc | ⟨l, hoc | hoc⟩ <;> rw [hoc] <;> rfl
    · rw [if_neg h0, List.cons_append]
      show parseNatFix 6 0 (padNum 6 dt.microsecond ++ offsetChars dt.tz) = _
      exact parseNatFix_padNum0 6 _ _ husb
  have hfull : isoChars dt = padNum 4 dt.year ++ '-' :: (padNum 2 dt.month ++
      '-' :: (padNum 2 dt.day ++ 'T' :: (padNum 2 dt.hour ++
      ':' :: (padNum 2 dt.minute ++ ':' :: (padNum 2 dt.second ++
      ((if dt.microsecond = 0 then [] else '.' :: padNum 6 dt.microsecond) ++
        offsetChars dt.tz)))))) := by
    simp [isoChars, List.append_assoc]
  rw [hfull]
  simp only [parseIso, parseNatFix_padNum0 4 dt.year _ hy, parseChar_cons,
    parseNatFix_padNum0 2 dt.month _ hmo, parseNatFix_padNum0 2 dt.day _ hd,
    parseNatFix_padNum0 2 dt.hour _ hho, parseNatFix_padNum0 2 dt.minute _ hmin,
    parseNatFix_padNum0 2 dt.second _ hsec, hmicro, hoff]
  rw [if_pos ⟨trivial, hymd, hh, hmi, hs⟩]

/-! ## Claim theorems -/

/-- C1: for every fully-populated `FireIncident` record (its two
timestamps being representable `datetime` values), deserializing the
mapping produced by `serialize` reproduces every field value exactly,
including the timestamp instants and offsets. -/
theorem serialize_deserialize_roundtrip (r : FireIncident)
    (h1 : r.containment_datetime.Valid) (h2 : r.fire_discovery_datetime.Valid) :
    deserialize (serialize r) = .ok r := by
  have e1 : fromisoformat (.jstr r.containment_datetime.isoformat) =
      .ok r.containment_datetime := by
    show (match parseIso (isoChars r.containment_datetime) with
      | some dt => Except.ok dt
      | none => Except.error (PyError.valueError
          ("Invalid isoformat string: " ++ r.containment_datetime.isoformat))) = _
    rw [parseIso_isoChars _ h1]
  have e2 : fromisoformat (.jstr r.fire_discovery_datetime.isoformat) =
      .ok r.fire_discovery_datetime := by
    show (match parseIso (isoChars r.fire_discovery_datetime) with
      | some dt => Except.ok dt
      | none => Except.error (PyError.valueError
          ("Invalid isoformat string: " ++ r.fire_discovery_datetime.isoformat))) = _
    rw [parseIso_isoChars _ h2]
  have hb : deserializeBody (serialize r) =
      (match fromisoformat (.jstr r.containment_datetime.isoformat) with
       | .error e => .error e
       | .ok c =>
         match fromisoformat (.jstr r.fire_discovery_datetime.isoformat) with
         | .error e => .error e
         | .ok f =>
           .ok { r with containment_datetime := c, fire_discovery_datetime := f }) := rfl
  rw [e1, e2] at hb
  show (match deserializeBody (serialize r) with
    | .ok r => Except.ok r
    | .error (PyError.keyError k) =>
        Except.error (PyException.validation ("Invalid FireIncident: missing " ++ k))
    | .error (PyError.typeError m) => Except.error (PyException.validation
        ("Invalid FireIncident: body of request contained bad or no data - Error message: " ++ m))
    | .error (PyError.valueError m) =>
        Except.error (PyException.uncaught (PyError.valueError m))) = _
  rw [hb]

/-- C1 witness: the round-trip evaluated on a concrete fully-populated
record (nonzero microseconds, negative non-UTC offset). -/
theorem serialize_deserialize_roundtrip_witness :
    (⟨.jint 7, .jnum 1, .jnum 2, .jnum 100,
      ⟨2023, 2, 28, 23, 59, 59, 123456, some (-480)⟩,
      ⟨2020, 1, 1, 0, 0, 0, 0, some 0⟩,
      .jstr "Test Fire", .jstr "WF", .jnum 34, .jnum (-118), .jstr "LA",
      .jstr "Los Angeles", .jstr "US-CA", .jint 1, .jstr "federal",
      .jstr "1994-AZCRA-000037"⟩ : FireIncident).containment_datetime.Valid ∧
    (⟨.jint 7, .jnum 1, .jnum 2, .jnum 100,
      ⟨2023, 2, 28, 23, 59, 59, 123456, some (-480)⟩,
      ⟨2020, 1, 1, 0, 0, 0, 0, some 0⟩,
      .jstr "Test Fire", .jstr "WF", .jnum 34, .jnum (-118), .jstr "LA",
      .jstr "Los Angeles", .jstr "US-CA", .jint 1, .jstr "federal",
      .jstr "1994-AZCRA-000037"⟩ : FireIncident).fire_discovery_datetime.Valid ∧
    deserialize (serialize
      (⟨.jint 7, .jnum 1, .jnum 2, .jnum 100,
        ⟨2023, 2, 28, 23, 59, 59, 123456, some (-480)⟩,
        ⟨2020, 1, 1, 0, 0, 0, 0, some 0⟩,
        .jstr "Test Fire", .jstr "WF", .jnum 34, .jnum (-118), .jstr "LA",
        .jstr "Los Angeles", .jstr "US-CA", .jint 1, .jstr "federal",
        .jstr "1994-AZCRA-000037"⟩ : FireIncident)) =
      .ok ⟨.jint 7, .jnum 1, .jnum 2, .jnum 100,
        ⟨2023, 2, 28, 23, 59, 59, 123456, some (-480)⟩,
        ⟨2020, 1, 1, 0, 0, 0, 0, some 0⟩,
        .jstr "Test Fire", .jstr "WF", .jnum 34, .jnum (-118), .jstr "LA",
        .jstr "Los Angeles", .jstr "US-CA", .jint 1, .jstr "federal",
        .jstr "1994-AZCRA-000037"⟩ :=
  ⟨by decide, by decide, serialize_deserialize_roundtrip _ (by decide) (by decide)⟩

/-- C3: on a complete mapping whose `containment_datetime` value is the
string `"not-a-datetime"`, `deserialize` does NOT fail with a
`DataValidationError`: the `ValueError` from `fromisoformat` escapes
uncaught, because the `try` block catches only `KeyError` and
`TypeError`. -/
theorem bad_timestamp_uncaught :
    deserialize badTimestampBody =
      .error (.uncaught (.valueError ("Invalid isoformat string: " ++ "not-a-datetime"))) ∧
    isValidationFailure (deserialize badTimestampBody) = false :=
  ⟨rfl, rfl⟩

/-- C4: `deserialize` on any value that is not a key/value mapping
(string, number, boolean, null, list) fails with a
`DataValidationError`, because subscripting any such value raises a
`TypeError`, which the `except TypeError` clause wraps. -/
theorem non_mapping_validation (v : JValue) (h : v.isMapping = false) :
    isValidationFailure (deserialize v) = true := by
  cases v with
  | jobj l => simp [JValue.isMapping] at h
  | jnull => rfl
  | jbool b => rfl
  | jint n => rfl
  | jnum q => rfl
  | jstr s => rfl
  | jlist l => rfl

/-- C4 witness: the repository's own test input, a plain string. -/
theorem non_mapping_validation_witness :
    (JValue.jstr "this is not a dictionary").isMapping = false ∧
    isValidationFailure (deserialize (.jstr "this is not a dictionary")) = true :=
  ⟨rfl, non_mapping_validation _ rfl⟩

/-! ## Lemmas about the store operations -/

theorem find_deleteRow (db : Db) (by_id : Int) : find (deleteRow db by_id) by_id = none := by
  simp only [find, deleteRow]
  rw [List.find?_eq_none]
  intro x hx
  have hmem := List.mem_filter.mp hx
  simpa using hmem.2

theorem jvEqStr_eq (v : JValue) (s : String) : jvEqStr v s = true ↔ v = .jstr s := by
  cases v <;> simp [jvEqStr]

theorem find?_updateRows (rows : List FireIncident) (by_id : Int) (upd : FireIncident)
    (hupd : upd.object_id = .jint by_id)
    (hfound : (rows.find? fun r => jvEqInt r.object_id by_id).isSome = true) :
    (updateRows rows by_id upd).find? (fun r => jvEqInt r.object_id by_id) = some upd := by
  induction rows with
  | nil => simp [List.find?] at hfound
  | cons r rs ih =>
    by_cases h : jvEqInt r.object_id by_id = true
    · rw [show updateRows (r :: rs) by_id upd = upd :: rs from by
        simp only [updateRows]; rw [if_pos h]]
      rw [List.find?_cons_of_pos _ (by simp [jvEqInt, hupd])]
    · have h' : jvEqInt r.object_id by_id = false := by
        revert h
        cases jvEqInt r.object_id by_id <;> simp
      rw [List.find?_cons_of_neg _ (by simp [h'])] at hfound
      simp only [updateRows, h', Bool.false_eq_true, if_false]
      rw [List.find?_cons_of_neg _ (by simp [h'])]
      exact ih hfound

/-- C8: `DELETE /fires/{id}` always returns 204 with an empty body; a
subsequent GET of the same id returns 404; a repeated DELETE of the
same id still returns 204 with an empty body. -/
theorem delete_idempotent_204 (db : Db) (object_id : Int) :
    (delete_fire_incidents db object_id).2 = ⟨204, .jstr "", none⟩ ∧
    (get_fire_incidents (delete_fire_incidents db object_id).1 object_id).status = 404 ∧
    (delete_fire_incidents (delete_fire_incidents db object_id).1 object_id).2 =
      ⟨204, .jstr "", none⟩ := by
  cases hf : find db object_id with
  | none => simp [delete_fire_incidents, hf, get_fire_incidents, errorResponse]
  | some r =>
    have hdel := find_deleteRow db object_id
    simp [delete_fire_incidents, hf, hdel, get_fire_incidents, errorResponse]

/-- C9: when the request body fails deserialization, neither POST nor
PUT changes the stored collection — `deserialize` raises before any
`create`/`update` call (the 400 translation itself is modelled from
the spec). -/
theorem no_write_on_validation_failure (db : Db) (ct : Option String) (body : JValue)
    (object_id : Int) (e : PyException) (hde : deserialize body = .error e) :
    (create_fire_incidents db ct body).1 = db ∧
    (update_fire_incidents db object_id ct body).1 = db := by
  constructor
  · by_cases hct : contentTypeOk ct
    · cases e <;> simp [create_fire_incidents, hct, hde]
    · simp [create_fire_incidents, hct]
  · by_cases hct : contentTypeOk ct
    · cases hf : find db object_id with
      | none => simp [update_fire_incidents, hct, hf]
      | some r => cases e <;> simp [update_fire_incidents, hct, hf, hde]
    · simp [update_fire_incidents, hct]

/-- C9 witness: the empty JSON object fails validation and leaves the
one-record store untouched under both POST and PUT. -/
theorem no_write_on_validation_failure_witness :
    deserialize (.jobj []) =
      .error (.validation ("Invalid FireIncident: missing " ++ "object_id")) ∧
    (create_fire_incidents oneRecordDb (some "application/json") (.jobj [])).1 =
      oneRecordDb ∧
    (update_fire_incidents oneRecordDb 1 (some "application/json") (.jobj [])).1 =
      oneRecordDb :=
  ⟨rfl, no_write_on_validation_failure oneRecordDb _ _ 1 _ rfl⟩

/-- C10: a present-but-empty `poo_county` query parameter falls into
the handler's truthiness test, so `GET /fires?poo_county=` returns the
entire collection, exactly as when the parameter is absent. -/
theorem empty_county_param_lists_all (db : Db) :
    list_fire_incidents db (some "") = list_fire_incidents db none ∧
    list_fire_incidents db (some "") =
      { status := 200, body := .jlist ((allRows db).map serialize), location := none } :=
  ⟨rfl, rfl⟩

/-- C5 counterexample: POSTing the spec's example mapping exactly as
given (without any `object_id` entry) is rejected with 400 — the
`object_id` key is required by `deserialize` — not answered with 201. -/
theorem post_example_counterexample :
    (create_fire_incidents emptyDb (some "application/json") exampleBody).2.status = 400 ∧
    (create_fire_incidents emptyDb (some "application/json") exampleBody).2.status ≠ 201 ∧
    (create_fire_incidents emptyDb (some "application/json") exampleBody).2 =
      errorResponse 400 ("Invalid FireIncident: missing " ++ "object_id") :=
  ⟨rfl, by decide, rfl⟩

/-- C5 amended: POSTing the example mapping extended with a null
`object_id` entry returns 201, the response body carries the assigned
`object_id`, and the Location id resolves via GET to the same body. -/
theorem post_example_with_null_id :
    (create_fire_incidents emptyDb (some "application/json") exampleBodyWithNullId).2.status
      = 201 ∧
    getItem
        (create_fire_incidents emptyDb (some "application/json") exampleBodyWithNullId).2.body
        "object_id" = .ok (.jint 1) ∧
    (create_fire_incidents emptyDb (some "application/json") exampleBodyWithNullId).2.location
      = some (.jint 1) ∧
    get_fire_incidents
        (create_fire_incidents emptyDb (some "application/json") exampleBodyWithNullId).1 1 =
      { status := 200,
        body := (create_fire_incidents emptyDb
          (some "application/json") exampleBodyWithNullId).2.body,
        location := none } :=
  ⟨rfl, rfl, rfl, rfl⟩

/-- C6 counterexample: with the filter value V = `""` the listing
returns the whole collection — here a record whose `poo_county` is
`"Los Angeles"`, not `""` — because the handler tests the parameter
for truthiness. -/
theorem county_filter_counterexample :
    exampleRecord1.poo_county ≠ .jstr "" ∧
    list_fire_incidents oneRecordDb (some "") =
      { status := 200, body := .jlist [serialize exampleRecord1], location := none } :=
  ⟨by simp [exampleRecord1, exampleRecord], rfl⟩

/-- C6 amended: for every nonempty filter value V, listing with
`poo_county=V` serializes exactly the records whose `poo_county`
equals V under case-sensitive exact string comparison (so the empty
sequence when none match). -/
theorem county_filter_exact (db : Db) (V : String) (hV : V ≠ "") :
    list_fire_incidents db (some V) =
      { status := 200, body := .jlist ((find_by_poo_county db V).map serialize),
        location := none } ∧
    ∀ r, r ∈ find_by_poo_county db V ↔ r ∈ db.rows ∧ r.poo_county = .jstr V := by
  constructor
  · simp [list_fire_incidents, hV]
  · intro r
    simp [find_by_poo_county, List.mem_filter, jvEqStr_eq]

/-- C6 witness: the amended filter equation evaluated on the
one-record store. -/
theorem county_filter_exact_witness :
    list_fire_incidents oneRecordDb (some "Los Angeles") =
      { status := 200,
        body := .jlist ((find_by_poo_county oneRecordDb "Los Angeles").map serialize),
        location := none } :=
  (county_filter_exact oneRecordDb "Los Angeles" (by decide)).1

/-- C7: PUT on a missing id answers 404; PUT on an existing id stores
the deserialized body with its `object_id` overwritten by the path
value, whatever id the body carried. -/
theorem put_preserves_identity (db : Db) (object_id : Int) (body : JValue) :
    (find db object_id = none →
      update_fire_incidents db object_id (some "application/json") body =
        (db, errorResponse 404
          ("FireIncident with id " ++ toString object_id ++ " was not found."))) ∧
    (∀ r0, find db object_id = some r0 → ∀ r, deserialize body = .ok r →
      (update_fire_incidents db object_id (some "application/json") body).2.status = 200 ∧
      find (update_fire_incidents db object_id (some "application/json") body).1 object_id =
        some { r with object_id := .jint object_id }) := by
  constructor
  · intro hf
    simp [update_fire_incidents, contentTypeOk, hf]
  · intro r0 hf r hde
    have hfound : (db.rows.find? fun rr => jvEqInt rr.object_id object_id).isSome = true := by
      have hf' : find db object_id = some r0 := hf
      unfold find at hf'
      rw [hf']
      rfl
    constructor
    · simp [update_fire_incidents, contentTypeOk, hf, hde]
    · have hf' : List.find? (fun rr => jvEqInt rr.object_id object_id) db.rows =
          some r0 := hf
      simp [update_fire_incidents, contentTypeOk, find, hf', hde]
      exact find?_updateRows db.rows object_id
        { r with object_id := .jint object_id } rfl hfound

/-- C7 witness: updating the stored record at id 1 with a body that
claims `object_id` 999 leaves a stored record whose `object_id` is 1. -/
theorem put_preserves_identity_witness :
    find oneRecordDb 1 = some exampleRecord1 ∧
    deserialize exampleBodyWith999 = .ok { exampleRecord with object_id := .jint 999 } ∧
    (update_fire_incidents oneRecordDb 1 (some "application/json")
      exampleBodyWith999).2.status = 200 ∧
    find (update_fire_incidents oneRecordDb 1 (some "application/json")
      exampleBodyWith999).1 1 = some { exampleRecord with object_id := .jint 1 } :=
  ⟨rfl, rfl,
    ((put_preserves_identity oneRecordDb 1 exampleBodyWith999).2 exampleRecord1 rfl
      { exampleRecord with object_id := .jint 999 } rfl).1,
    ((put_preserves_identity oneRecordDb 1 exampleBodyWith999).2 exampleRecord1 rfl
      { exampleRecord with object_id := .jint 999 } rfl).2⟩

/-- C2 counterexample: a mapping that lacks the required key
`fire_discovery_datetime` but whose `containment_datetime` value is an
unparseable string makes `deserialize` fail with an uncaught
`ValueError`, not with a `DataValidationError` naming the missing
key. -/
theorem missing_key_uncaught_counterexample :
    List.lookup "fire_discovery_datetime" missingKeyBadTsBody = none ∧
    "fire_discovery_datetime" ∈ requiredKeys ∧
    deserialize (.jobj missingKeyBadTsBody) =
      .error (.uncaught (.valueError ("Invalid isoformat string: " ++ "bad"))) ∧
    isValidationFailure (deserialize (.jobj missingKeyBadTsBody)) = false :=
  ⟨rfl, by decide, rfl, rfl⟩

/-- C2 amended: for every mapping whose timestamp entries (when
present) hold values `fromisoformat` accepts, if a required key is
missing then `deserialize` fails with a `DataValidationError` naming
the first missing key in the order the fields are read. -/
theorem deserialize_missing_key_validation (l : List (String × JValue)) (k : String)
    (hts : TimestampsParse l) (hk : firstMissingKey l = some k) :
    List.lookup k l = none ∧
    deserialize (.jobj l) =
      .error (.validation ("Invalid FireIncident: missing " ++ k)) := by
  rcases h0 : List.lookup "object_id" l with _ | v0
  · have hfmk : firstMissingKey l = some "object_id" := by
      simp [firstMissingKey, requiredKeys, List.find?, h0]
    rw [hfmk] at hk
    injection hk with hk
    subst hk
    exact ⟨h0, by simp [deserialize, deserializeBody, getItem, h0]⟩
  rcases h1 : List.lookup "x" l with _ | v1
  · have hfmk : firstMissingKey l = some "x" := by
      simp [firstMissingKey, requiredKeys, List.find?, h0, h1]
    rw [hfmk] at hk
    injection hk with hk
    subst hk
    exact ⟨h1, by simp [deserialize, deserializeBody, getItem, h0, h1]⟩
  rcases h2 : List.lookup "y" l with _ | v2
  · have hfmk : firstMissingKey l = some "y" := by
      simp [firstMissingKey, requiredKeys, List.find?, h0, h1, h2]
    rw [hfmk] at hk
    injection hk with hk
    subst hk
    exact ⟨h2, by simp [deserialize, deserializeBody, getItem, h0, h1, h2]⟩
  rcases h3 : List.lookup "incident_size" l with _ | v3
  · have hfmk : firstMissingKey l = some "incident_size" := by
      simp [firstMissingKey, requiredKeys, List.find?, h0, h1, h2, h3]
    rw [hfmk] at hk
    injection hk with hk
    subst hk
    exact ⟨h3, by simp [deserialize, deserializeBody, getItem, h0, h1, h2, h3]⟩
  rcases h4 : List.lookup "containment_datetime" l with _ | v4
  · have hfmk : firstMissingKey l = some "containment_datetime" := by
      simp [firstMissingKey, requiredKeys, List.find?, h0, h1, h2, h3, h4]
    rw [hfmk] at hk
    injection hk with hk
    subst hk
    exact ⟨h4, by simp [deserialize, deserializeBody, getItem, h0, h1, h2, h3, h4]⟩
  obtain ⟨dt4, hdt4⟩ := hts.1 v4 h4
  rcases h5 : List.lookup "fire_discovery_datetime" l with _ | v5
  · have hfmk : firstMissingKey l = some "fire_discovery_datetime" := by
      simp [firstMissingKey, requiredKeys, List.find?, h0, h1, h2, h3, h4, h5]
    rw [hfmk] at hk
    injection hk with hk
    subst hk
    exact ⟨h5, by simp [deserialize, deserializeBody, getItem, h0, h1, h2, h3, h4, h5, hdt4]⟩
  obtain ⟨dt5, hdt5⟩ := hts.2 v5 h5
  rcases h6 : List.lookup "incident_name" l with _ | v6
  · have hfmk : firstMissingKey l = some "incident_name" := by
      simp [firstMissingKey, requiredKeys, List.find?, h0, h1, h2, h3, h4, h5, h6]
    rw [hfmk] at hk
    injection hk with hk
    subst hk
    exact ⟨h6, by simp [deserialize, deserializeBody, getItem, h0, h1, h2, h3, h4, h5, h6, hdt4, hdt5]⟩
  rcases h7 : List.lookup "incident_type_category" l with _ | v7
  · have hfmk : firstMissingKey l = some "incident_type_category" := by
      simp [firstMissingKey, requiredKeys, List.find?, h0, h1, h2, h3, h4, h5, h6, h7]
    rw [hfmk] at hk
    injection hk with hk
    subst hk
    exact ⟨h7, by simp [deserialize, deserializeBody, getItem, h0, h1, h2, h3, h4, h5, h6, h7, hdt4, hdt5]⟩
  rcases h8 : List.lookup "initial_latitude" l with _ | v8
  · have hfmk : firstMissingKey l = some "initial_latitude" := by
      simp [firstMissingKey, requiredKeys, List.find?, h0, h1, h2, h3, h4, h5, h6, h7, h8]
    rw [hfmk] at hk
    injection hk with hk
    subst hk
    exact ⟨h8, by simp [deserialize, deserializeBody, getItem, h0, h1, h2, h3, h4, h5, h6, h7, h8, hdt4, hdt5]⟩
  rcases h9 : List.lookup "initial_longitude" l with _ | v9
  · have hfmk : firstMissingKey l = some "initial_longitude" := by
      simp [firstMissingKey, requiredKeys, List.find?, h0, h1, h2, h3, h4, h5, h6, h7, h8, h9]
    rw [hfmk] at hk
    injection hk with hk
    subst hk
    exact ⟨h9, by simp [deserialize, deserializeBody, getItem, h0, h1, h2, h3, h4, h5, h6, h7, h8, h9, hdt4, hdt5]⟩
  rcases h10 : List.lookup "poo_city" l with _ | v10
  · have hfmk : firstMissingKey l = some "poo_city" := by
      simp [firstMissingKey, requiredKeys, List.find?, h0, h1, h2, h3, h4, h5, h6, h7, h8, h9, h10]
    rw [hfmk] at hk
    injection hk with hk
    subst hk
    exact ⟨h10, by simp [deserialize, deserializeBody, getItem, h0, h1, h2, h3, h4, h5, h6, h7, h8, h9, h10, hdt4, hdt5]⟩
  rcases h11 : List.lookup "poo_county" l with _ | v11
  · have hfmk : firstMissingKey l = some "poo_county" := by
      simp [firstMissingKey, requiredKeys, List.find?, h0, h1, h2, h3, h4, h5, h6, h7, h8, h9, h10, h11]
    rw [hfmk] at hk
    injection hk with hk
    subst hk
    exact ⟨h11, by simp [deserialize, deserializeBody, getItem, h0, h1, h2, h3, h4, h5, h6, h7, h8, h9, h10, h11, hdt4, hdt5]⟩
  rcases h12 : List.lookup "poo_state" l with _ | v12
  · have hfmk : firstMissingKey l = some "poo_state" := by
      simp [firstMissingKey, requiredKeys, List.find?, h0, h1, h2, h3, h4, h5, h6, h7, h8, h9, h10, h11, h12]
    rw [hfmk] at hk
    injection hk with hk
    subst hk
    exact ⟨h12, by simp [deserialize, deserializeBody, getItem, h0, h1, h2, h3, h4, h5, h6, h7, h8, h9, h10, h11, h12, hdt4, hdt5]⟩
  rcases h13 : List.lookup "fire_cause_id" l with _ | v13
  · have hfmk : firstMissingKey l = some "fire_cause_id" := by
      simp [firstMissingKey, requiredKeys, List.find?, h0, h1, h2, h3, h4, h5, h6, h7, h8, h9, h10, h11, h12, h13]
    rw [hfmk] at hk
    injection hk with hk
    subst hk
    exact ⟨h13, by simp [deserialize, deserializeBody, getItem, h0, h1, h2, h3, h4, h5, h6, h7, h8, h9, h10, h11, h12, h13, hdt4, hdt5]⟩
  rcases h14 : List.lookup "poo_landowner_category" l with _ | v14
  · have hfmk : firstMissingKey l = some "poo_landowner_category" := by
      simp [firstMissingKey, requiredKeys, List.find?, h0, h1, h2, h3, h4, h5, h6, h7, h8, h9, h10, h11, h12, h13, h14]
    rw [hfmk] at hk
    injection hk with hk
    subst hk
    exact ⟨h14, by simp [deserialize, deserializeBody, getItem, h0, h1, h2, h3, h4, h5, h6, h7, h8, h9, h10, h11, h12, h13, h14, hdt4, hdt5]⟩
  rcases h15 : List.lookup "unique_fire_identifier" l with _ | v15
  · have hfmk : firstMissingKey l = some "unique_fire_identifier" := by
      simp [firstMissingKey, requiredKeys, List.find?, h0, h1, h2, h3, h4, h5, h6, h7, h8, h9, h10, h11, h12, h13, h14, h15]
    rw [hfmk] at hk
    injection hk with hk
    subst hk
    exact ⟨h15, by simp [deserialize, deserializeBody, getItem, h0, h1, h2, h3, h4, h5, h6, h7, h8, h9, h10, h11, h12, h13, h14, h15, hdt4, hdt5]⟩
  have hfmk : firstMissingKey l = none := by
    simp [firstMissingKey, requiredKeys, List.find?, h0, h1, h2, h3, h4, h5, h6, h7, h8, h9, h10, h11, h12, h13, h14, h15]
  rw [hfmk] at hk
  exact Option.noConfusion hk

/-- C2 witness: a mapping holding only an `x` entry is rejected with a
`DataValidationError` naming `object_id`. -/
theorem deserialize_missing_key_validation_witness :
    List.lookup "object_id" ([("x", JValue.jnull)]) = none ∧
    deserialize (.jobj [("x", JValue.jnull)]) =
      .error (.validation ("Invalid FireIncident: missing " ++ "object_id")) :=
  deserialize_missing_key_validation [("x", JValue.jnull)] "object_id"
    ⟨(fun _v h => nomatch h), (fun _v h => nomatch h)⟩ rfl
